import Mathlib

/-!
Verification development for the kleinPDF batch PDF compressor.

The definitions below are a shallow embedding of the Go source:
- internal/services/pdf.go (per-file compression, grayscale pre-pass,
  Ghostscript argument construction, engine invocation and result checks);
- internal/app/concurrency/worker_pool.go (batch dispatcher and result
  aggregation);
- the container service (CompressionServiceImpl.CompressPDF) and the
  application handler (CompressionHandler.CompressPDFWithContext) together
  with the statistics accumulator (internal/application/stats.go).

External effects are modelled explicitly: the filesystem is a list of
existing paths, the Ghostscript process is an oracle from the argument
vector to an invocation result, and file sizes come from a stat oracle.
Machine integers are modelled as Int (no overflow is relevant to the
properties below) and the Go float64 ratio computations are modelled over
the rationals extended with NaN and the infinities, which captures exactly
the zero-denominator behaviour the claims are about.
-/

namespace KleinPDF

/-! ## String helpers (Go standard library functions used by the source) -/

/-- Model of the first-match step of Go strings.Replace with count 1 on
rune-free ASCII data: if old is a prefix of s, substitute it, otherwise
recurse on the tail.  Matches Go semantics for n = 1, including the
empty-old case (new is inserted at the front). -/
def replaceFirst (old new : List Char) : List Char → List Char
  | [] => if old.isEmpty then new else []
  | c :: rest =>
    if old.isPrefixOf (c :: rest) then new ++ (c :: rest).drop old.length
    else c :: replaceFirst old new rest

/-- Model of Go strings.Replace(s, old, new, 1). -/
def goReplaceOnce (s old new : String) : String :=
  ⟨replaceFirst old.data new.data s.data⟩

/-- Whether old occurs as a contiguous substring of s (Go strings.Contains). -/
def containsSub (old : List Char) : List Char → Bool
  | [] => old.isEmpty
  | c :: rest => old.isPrefixOf (c :: rest) || containsSub old rest

/-- Model of Go strings.TrimSuffix. -/
def goTrimSuffix (s suffix : String) : String :=
  if suffix.data.isSuffixOf s.data then ⟨s.data.take (s.data.length - suffix.data.length)⟩
  else s

/-- Split a character list at every forward slash. -/
def splitOnSlash : List Char → List (List Char)
  | [] => [[]]
  | c :: rest =>
    let r := splitOnSlash rest
    if c = '/' then [] :: r
    else match r with
      | [] => [[c]]
      | h :: t => (c :: h) :: t

/-- Model of Go filepath.Base for forward-slash paths without trailing
slashes (the only shape the claims exercise). -/
def goBase (p : String) : String :=
  ⟨(splitOnSlash p.data).getLastD p.data⟩

/-- Model of Go filepath.Dir for forward-slash paths without trailing
slashes. -/
def goDir (p : String) : String :=
  let parts := splitOnSlash p.data
  if parts.length ≤ 1 then "." else ⟨List.intercalate ['/'] parts.dropLast⟩

/-- Model of Go filepath.Join for the two-argument uses in the source. -/
def goJoin (d f : String) : String :=
  if d = "." then f else d ++ "/" ++ f

/-! ## Compression options (services/pdf.go) -/

/-- CompressionOptions from internal/services/pdf.go.  The JSON tags are
irrelevant to the verified behaviour and are dropped. -/
structure CompressionOptions where
  imageDPI : Int
  imageQuality : Int
  pdfVersion : String
  removeMetadata : Bool
  embedFonts : Bool
  generateThumbnails : Bool
  convertToGrayscale : Bool
deriving Repr, DecidableEq

/-- DefaultCompressionOptions from internal/services/pdf.go. -/
def DefaultCompressionOptions : CompressionOptions :=
  { imageDPI := 150
    imageQuality := 85
    pdfVersion := "1.4"
    removeMetadata := false
    embedFonts := true
    generateThumbnails := false
    convertToGrayscale := false }

/-- The option-validation prologue of CompressPDF (pdf.go lines 52 to 66):
a nil pointer is replaced by the defaults, then an empty version string,
a non-positive DPI and a non-positive quality are individually defaulted.
Note the quality check in the source is only ImageQuality leq 0; values
above 100 pass through unchanged. -/
def normalizeOptions : Option CompressionOptions → CompressionOptions
  | none => DefaultCompressionOptions
  | some o =>
    let o1 := if o.pdfVersion = "" then { o with pdfVersion := "1.4" } else o
    let o2 := if o1.imageDPI ≤ 0 then { o1 with imageDPI := 150 } else o1
    if o2.imageQuality ≤ 0 then { o2 with imageQuality := 85 } else o2

/-! ## Ghostscript argument construction (pdf.go lines 82 to 131) -/

/-- The switch on compressionLevel (pdf.go lines 83 to 91). -/
def pdfSettingsFor (compressionLevel : String) : String :=
  if compressionLevel = "ultra" then "/screen"
  else if compressionLevel = "aggressive" then "/ebook"
  else "/printer"

/-- The fixed argument slice built at pdf.go lines 93 to 114. -/
def baseArgs (compressionLevel : String) (o : CompressionOptions) : List String :=
  [ "-sDEVICE=pdfwrite",
    "-dPDFSETTINGS=" ++ pdfSettingsFor compressionLevel,
    "-dCompatibilityLevel=" ++ o.pdfVersion,
    "-dNOPAUSE",
    "-dQUIET",
    "-dBATCH",
    "-dAutoRotatePages=/None",
    "-dColorImageDownsampleType=/Bicubic",
    "-dColorImageResolution=" ++ toString o.imageDPI,
    "-dGrayImageDownsampleType=/Bicubic",
    "-dGrayImageResolution=" ++ toString o.imageDPI,
    "-dMonoImageDownsampleType=/Bicubic",
    "-dMonoImageResolution=" ++ toString o.imageDPI,
    "-dColorConversionStrategy=/sRGB",
    "-dEmbedAllFonts=" ++ toString o.embedFonts,
    "-dSubsetFonts=true",
    "-dOptimize=true",
    "-dDownsampleColorImages=true",
    "-dDownsampleGrayImages=true",
    "-dDownsampleMonoImages=true" ]

/-- The conditional appends of pdf.go lines 116 to 129: ultra-only stream
and font compression flags, metadata-removal flags, thumbnail flag. -/
def buildArgs (compressionLevel : String) (o : CompressionOptions) : List String :=
  let a1 := baseArgs compressionLevel o
  let a2 := if compressionLevel = "ultra"
            then a1 ++ ["-dCompressFonts=true", "-dCompressStreams=true"] else a1
  let a3 := if o.removeMetadata then a2 ++ ["-dPDFX", "-dUseCIEColor"] else a2
  if o.generateThumbnails then a3 ++ ["-dGenerateThumbnails=true"] else a3

/-- The final append of the output and input paths (pdf.go line 131). -/
def fullArgs (compressionLevel : String) (o : CompressionOptions)
    (outputPath actualInputPath : String) : List String :=
  buildArgs compressionLevel o ++ ["-sOutputFile=" ++ outputPath, actualInputPath]

/-! ## Engine, filesystem and invocation model (pdf.go lines 133 to 171) -/

/-- Observable behaviour of one Ghostscript process run.  exitOk is exit
code zero (cmd.CombinedOutput returned a nil error); errString is the Go
rendering of the non-nil error (for example exit status 1) and is
meaningful only when exitOk is false; output is the captured combined
stdout and stderr; writesOutput says whether the process left the file
named by its -sOutputFile argument on disk. -/
structure EngineResult where
  exitOk : Bool
  errString : String
  output : String
  writesOutput : Bool
deriving Repr, DecidableEq

/-- An engine oracle: the behaviour of spawning the Ghostscript binary on a
given argument vector. -/
def Engine : Type := List String → EngineResult

/-- System state threaded through a compression call: the set of existing
file paths, plus the ordered log of every engine invocation made (used to
state that no retry happens). -/
structure SysState where
  fs : List String
  invocations : List (List String)
deriving Repr, DecidableEq

/-- Spawn one engine process (exec.Command + CombinedOutput): the output
file appears on disk exactly when the process writes it, and the argv is
appended to the invocation log. -/
def invokeEngine (engine : Engine) (st : SysState) (args : List String)
    (outputPath : String) : SysState × EngineResult :=
  let r := engine args
  let fs1 := if r.writesOutput then
               (if st.fs.contains outputPath then st.fs else outputPath :: st.fs)
             else st.fs
  ({ fs := fs1, invocations := st.invocations ++ [args] }, r)

/-- Structured rendering of the error values CompressPDF can return.
message below spells out the exact fmt.Errorf strings of the source. -/
inductive CompressError where
  | ghostscriptNotFound
  | grayscaleFailed (inner : String)
  | execFailed (errString output : String)
  | outputMissing
  | statFailed
deriving Repr, DecidableEq

/-- The Go error strings produced by the source for each error case.
statFailed stands for the os.Stat error that processSingleFile propagates
verbatim; its text depends on the operating system and is left abstract. -/
def CompressError.message : CompressError → String
  | .ghostscriptNotFound =>
      "Ghostscript not found. Please install Ghostscript to use this application"
  | .grayscaleFailed inner => "grayscale conversion failed: " ++ inner
  | .execFailed errString output =>
      "ghostscript failed: " ++ errString ++ ", output: " ++ output
  | .outputMissing => "ghostscript did not create output file"
  | .statFailed => "stat failed"

/-- The fixed colorspace-conversion argument vector of convertToGrayscale
(pdf.go lines 150 to 161). -/
def grayscaleArgs (inputPath outputPath : String) : List String :=
  [ "-sDEVICE=pdfwrite",
    "-sProcessColorModel=DeviceGray",
    "-dOverrideICC",
    "-dUseCIEColor",
    "-dCompatibilityLevel=1.4",
    "-dNOPAUSE",
    "-dQUIET",
    "-dBATCH",
    "-sOutputFile=" ++ outputPath,
    inputPath ]

/-- convertToGrayscale (pdf.go lines 149 to 171): one engine invocation;
only the exit code is inspected, the output file is not checked.  On
failure the full inner error string is returned. -/
def convertToGrayscale (engine : Engine) (st : SysState)
    (inputPath outputPath : String) : SysState × Except String Unit :=
  let p := invokeEngine engine st (grayscaleArgs inputPath outputPath) outputPath
  if p.2.exitOk then (p.1, .ok ())
  else (p.1, .error ("grayscale conversion failed: " ++ p.2.errString ++
                     ", output: " ++ p.2.output))

/-- The engine execution and result classification of CompressPDF
(pdf.go lines 133 to 145): run once; a non-nil exec error yields the
ghostscript-failed error carrying the captured output; a clean exit with
the output path absent yields the output-missing error; otherwise success. -/
def execGhostscript (engine : Engine) (st : SysState) (args : List String)
    (outputPath : String) : SysState × Except CompressError Unit :=
  let p := invokeEngine engine st args outputPath
  if p.2.exitOk then
    if p.1.fs.contains outputPath then (p.1, .ok ())
    else (p.1, .error .outputMissing)
  else (p.1, .error (.execFailed p.2.errString p.2.output))

/-- Deletion of a path (os.Remove in the deferred cleanup). -/
def removePath (st : SysState) (p : String) : SysState :=
  { st with fs := st.fs.filter (fun q => q != p) }

/-- CompressPDF from internal/services/pdf.go (lines 47 to 147).  Structure
of the source: missing Ghostscript path fails immediately; options are
defaulted; when ConvertToGrayscale is set the intermediate path is derived
by strings.Replace(inputPath, .pdf, _grayscale_temp.pdf, 1), the grayscale
pre-pass runs, and on its failure the function returns before the deferred
os.Remove is registered, so no cleanup happens on that path; after a
successful pre-pass the deferred removal runs on every later exit. -/
def compressPDF (gsPath : String) (engine : Engine)
    (inputPath outputPath compressionLevel : String)
    (options : Option CompressionOptions) (st : SysState) :
    SysState × Except CompressError Unit :=
  if gsPath = "" then (st, .error .ghostscriptNotFound)
  else
    let o := normalizeOptions options
    if o.convertToGrayscale then
      let tempGrayscalePath := goReplaceOnce inputPath ".pdf" "_grayscale_temp.pdf"
      let p := convertToGrayscale engine st inputPath tempGrayscalePath
      match p.2 with
      | .error inner => (p.1, .error (.grayscaleFailed inner))
      | .ok _ =>
        let q := execGhostscript engine p.1
                   (fullArgs compressionLevel o outputPath tempGrayscalePath) outputPath
        (removePath q.1 tempGrayscalePath, q.2)
    else
      execGhostscript engine st (fullArgs compressionLevel o outputPath inputPath) outputPath

/-! ## Go float64 for the ratio computations -/

/-- Go float64 values arising in the ratio computations: a finite value
(idealized as a rational; rounding is irrelevant to the claims, which are
about zero denominators and exact zero results), the two infinities, and
NaN.  float64(a)/float64(b) for integer a, b with b = 0 gives NaN when
a = 0 and a signed infinity otherwise, exactly as IEEE 754 prescribes. -/
inductive GoFloat where
  | fin (q : ℚ)
  | posInf
  | negInf
  | nan
deriving Repr, DecidableEq

/-- Division float64(a)/float64(b) of two integer-valued operands. -/
def goDivInt (a b : Int) : GoFloat :=
  if b = 0 then (if a = 0 then .nan else if 0 < a then .posInf else .negInf)
  else .fin ((a : ℚ) / (b : ℚ))

/-- Multiplication by the literal 100 in the ratio expressions. -/
def GoFloat.mul100 : GoFloat → GoFloat
  | .fin q => .fin (q * 100)
  | .posInf => .posInf
  | .negInf => .negInf
  | .nan => .nan

/-! ## Per-item result record and per-file processing -/

/-- FileResult (internal/app/concurrency/types.go and the application
layer).  CompressionRatio, CompressedPath and SavedPath are not mentioned
by any claim and are omitted. -/
structure FileResult where
  fileID : String
  originalFilename : String
  compressedFilename : String
  originalSize : Int
  compressedSize : Int
  status : String
  error : String
deriving Repr, DecidableEq

/-- processSingleFile of CompressionServiceImpl (and, identically in every
modelled respect, processSingleFileWithProgress of CompressionHandler):
derive the timestamped output name next to the input, call the service
CompressPDF, then stat both files for the sizes.  The wall-clock timestamp
and the stat results are oracle parameters; statSize returns none when
os.Stat fails.  Progress-event emission is not modelled. -/
def processSingleFile (gsPath : String) (engine : Engine)
    (statSize : String → Option Int) (timestamp : String)
    (fileID filePath compressionLevel : String)
    (options : Option CompressionOptions) (st : SysState) :
    SysState × Except CompressError FileResult :=
  let filename := goBase filePath
  let baseName := goTrimSuffix filename ".pdf"
  let compressedFilename := baseName ++ "_" ++ timestamp ++ "_compressed.pdf"
  let compressedPath := goJoin (goDir filePath) compressedFilename
  let p := compressPDF gsPath engine filePath compressedPath compressionLevel options st
  match p.2 with
  | .error e => (p.1, .error e)
  | .ok _ =>
    match statSize filePath, statSize compressedPath with
    | some originalSize, some compressedSize =>
      (p.1, .ok { fileID := fileID
                  originalFilename := filename
                  compressedFilename := compressedFilename
                  originalSize := originalSize
                  compressedSize := compressedSize
                  status := ""
                  error := "" })
    | _, _ => (p.1, .error .statFailed)

/-- The error wrapper common.NewCompressionError(operation, filePath, err)
rendered through CompressionError.Error(): with a non-empty FilePath the
message reads compression OP failed for file PATH: ERR, otherwise
compression OP failed: ERR (part_004 lines 25 to 30). -/
def compressionErrorMessage (operation filePath inner : String) : String :=
  if filePath ≠ "" then
    "compression " ++ operation ++ " failed for file " ++ filePath ++ ": " ++ inner
  else
    "compression " ++ operation ++ " failed: " ++ inner

/-- The worker loop body of CompressionServiceImpl.CompressPDF: on a
processing error, build an error outcome carrying the wrapped message; on
success, mark the outcome completed.  Workers each pull one item at a time
until the queue is empty and every item yields exactly one result; the
model processes the queue sequentially, which fixes one completion order
(aggregation is order-independent, see the batch theorems). -/
def batchProcess (gsPath : String) (engine : Engine)
    (statSize : String → Option Int) (timestamp : String)
    (compressionLevel : String) (options : Option CompressionOptions) :
    List (String × String) → SysState → List FileResult × SysState
  | [], st => ([], st)
  | (id, path) :: rest, st =>
    let p := processSingleFile gsPath engine statSize timestamp id path
               compressionLevel options st
    let outcome := match p.2 with
      | .error e =>
        { fileID := id
          originalFilename := goBase path
          compressedFilename := ""
          originalSize := 0
          compressedSize := 0
          status := "error"
          error := compressionErrorMessage "processing" path e.message }
      | .ok r => { r with status := "completed" }
    let q := batchProcess gsPath engine statSize timestamp compressionLevel options rest p.1
    (outcome :: q.1, q.2)

/-- The result-collection fold shared by collectResults and the service
and handler batch loops: sum original and compressed sizes over outcomes
whose status is completed. -/
def aggregate (results : List FileResult) : Int × Int :=
  results.foldl
    (fun acc r =>
      if r.status == "completed" then (acc.1 + r.originalSize, acc.2 + r.compressedSize)
      else acc)
    (0, 0)

/-- resolveCompressionLevel (container service and application handler):
a non-empty requested level wins; otherwise the stored preference is
consulted, and a load error or absent preferences fall back to the
default good_enough.  The function never returns an error. -/
def resolveCompressionLevel (requestedLevel : String)
    (prefs : Except Unit (Option String)) : String :=
  if requestedLevel ≠ "" then requestedLevel
  else match prefs with
    | .error _ => "good_enough"
    | .ok none => "good_enough"
    | .ok (some level) => level

/-- CompressionRequest: the fields the modelled paths read. -/
structure CompressionRequest where
  files : List String
  compressionLevel : String
  advancedOptions : Option CompressionOptions
deriving Repr

/-- CompressionResponse (domain/compression and application layers):
the fields the claims mention. -/
structure CompressionResponse where
  success : Bool
  files : List FileResult
  totalFiles : Nat
  totalOriginalSize : Int
  totalCompressedSize : Int
  overallCompressionRatio : GoFloat
  error : String
deriving Repr, DecidableEq

/-- CompressionServiceImpl.CompressPDF (container service, lines 97 to
266): reject an empty file list pre-dispatch; resolve the level; give
every work item a fresh id from the supply; run the workers; aggregate,
computing the overall ratio by an unguarded float64 division; report
Success true whenever dispatch happened.  There is no engine-availability
check at this level: a missing Ghostscript binary surfaces per file inside
processSingleFile. -/
def serviceCompressPDF (gsPath : String) (engine : Engine)
    (statSize : String → Option Int) (timestamp : String)
    (ids : Nat → String) (prefs : Except Unit (Option String))
    (request : CompressionRequest) (st : SysState) : CompressionResponse :=
  if request.files.isEmpty then
    { success := false, files := [], totalFiles := 0, totalOriginalSize := 0,
      totalCompressedSize := 0, overallCompressionRatio := .fin 0,
      error := "no files provided for compression" }
  else
    let level := resolveCompressionLevel request.compressionLevel prefs
    let items := request.files.enum.map (fun ip => (ids ip.1, ip.2))
    let run := batchProcess gsPath engine statSize timestamp level
                 request.advancedOptions items st
    let results := run.1
    let totals := aggregate results
    { success := true
      files := results
      totalFiles := results.length
      totalOriginalSize := totals.1
      totalCompressedSize := totals.2
      overallCompressionRatio := (goDivInt (totals.1 - totals.2) totals.1).mul100
      error := "" }

/-- AppStats (internal/application/stats.go and app.go). -/
structure AppStats where
  totalFilesCompressed : Int
  totalDataSaved : Int
  sessionFilesCompressed : Int
  sessionDataSaved : Int
deriving Repr, DecidableEq

/-- StatsManager.UpdateStats (stats.go lines 25 to 33): add the two
arguments into the session and lifetime counters. -/
def updateStats (s : AppStats) (filesCompressed : Int) (dataSaved : Int) : AppStats :=
  { totalFilesCompressed := s.totalFilesCompressed + filesCompressed
    totalDataSaved := s.totalDataSaved + dataSaved
    sessionFilesCompressed := s.sessionFilesCompressed + filesCompressed
    sessionDataSaved := s.sessionDataSaved + dataSaved }

/-- CompressionHandler.CompressPDFWithContext
(internal/application/compression.go lines 50 to 240): the same batch
algorithm as the container service, plus exactly one post-join call
statsManager.UpdateStats(len(results), dataSaved) on the dispatch path.
The second component records the argument pairs of every UpdateStats call
made during the batch, in order. -/
def compressPDFWithContext (gsPath : String) (engine : Engine)
    (statSize : String → Option Int) (timestamp : String)
    (ids : Nat → String) (prefs : Except Unit (Option String))
    (request : CompressionRequest) (st : SysState) :
    CompressionResponse × List (Int × Int) :=
  if request.files.isEmpty then
    ({ success := false, files := [], totalFiles := 0, totalOriginalSize := 0,
       totalCompressedSize := 0, overallCompressionRatio := .fin 0,
       error := "no files provided for compression" }, [])
  else
    let level := resolveCompressionLevel request.compressionLevel prefs
    let items := request.files.enum.map (fun ip => (ids ip.1, ip.2))
    let run := batchProcess gsPath engine statSize timestamp level
                 request.advancedOptions items st
    let results := run.1
    let totals := aggregate results
    ({ success := true
       files := results
       totalFiles := results.length
       totalOriginalSize := totals.1
       totalCompressedSize := totals.2
       overallCompressionRatio := (goDivInt (totals.1 - totals.2) totals.1).mul100
       error := "" },
     [((results.length : Int), totals.1 - totals.2)])

/-! ## Worker pool layer (internal/app/concurrency/worker_pool.go) -/

/-- ProcessorFunc (concurrency/types.go), with the workerID argument
dropped: it is used only for progress events, which are not modelled. -/
def ProcessorFunc : Type :=
  String → String → String → Option CompressionOptions → Except String FileResult

/-- BatchRequest for the worker pool. -/
structure BatchRequest where
  files : List String
  compressionLevel : String
  advancedOptions : Option CompressionOptions
deriving Repr

/-- BatchResult (concurrency/types.go). -/
structure BatchResult where
  success : Bool
  results : List FileResult
  totalFiles : Nat
  totalOriginalSize : Int
  totalCompressedSize : Int
  overallCompressionRatio : GoFloat
  error : String
deriving Repr, DecidableEq

/-- The worker body of WorkerPool.worker (worker_pool.go lines 70 to 97):
a processor error becomes an error outcome carrying the raw error string;
a processor result is marked completed and forwarded unchanged. -/
def runWorkItem (proc : ProcessorFunc) (id path compressionLevel : String)
    (options : Option CompressionOptions) : FileResult :=
  match proc id path compressionLevel options with
  | .error e =>
    { fileID := id
      originalFilename := goBase path
      compressedFilename := ""
      originalSize := 0
      compressedSize := 0
      status := "error"
      error := e }
  | .ok r => { r with status := "completed" }

/-- WorkerPool.collectResults (worker_pool.go lines 107 to 136): fold the
drained outcome stream into totals over completed outcomes; the overall
ratio is computed only under the guard totalOriginalSize greater than 0
and otherwise keeps its zero initial value. -/
def collectResults (results : List FileResult) : BatchResult :=
  let totals := aggregate results
  let ratio := if 0 < totals.1
               then (goDivInt (totals.1 - totals.2) totals.1).mul100
               else GoFloat.fin 0
  { success := true
    results := results
    totalFiles := results.length
    totalOriginalSize := totals.1
    totalCompressedSize := totals.2
    overallCompressionRatio := ratio
    error := "" }

/-- The per-item outcomes a full uncancelled run of WorkerPool.ProcessBatch
produces, in submission order (the real completion order is an arbitrary
permutation of this list; the batch theorems quantify over it). -/
def batchOutcomes (proc : ProcessorFunc) (ids : Nat → String)
    (request : BatchRequest) : List FileResult :=
  (request.files.enum.map (fun ip => (ids ip.1, ip.2))).map
    (fun it => runWorkItem proc it.1 it.2 request.compressionLevel request.advancedOptions)

/-- WorkerPool.ProcessBatch (worker_pool.go lines 22 to 67) for a run
without cancellation: an empty batch short-circuits; otherwise every item
is processed exactly once and the outcomes are collected. -/
def processBatch (proc : ProcessorFunc) (ids : Nat → String)
    (request : BatchRequest) : BatchResult :=
  if request.files.isEmpty then
    { success := false, results := [], totalFiles := 0, totalOriginalSize := 0,
      totalCompressedSize := 0, overallCompressionRatio := .fin 0,
      error := "no files provided" }
  else
    collectResults (batchOutcomes proc ids request)

/-! ## General helper lemmas -/

theorem string_data_append (a b : String) : (a ++ b).data = a.data ++ b.data := rfl

theorem isPrefixOf_self_append (l t : List Char) : l.isPrefixOf (l ++ t) = true := by
  induction l with
  | nil => simp [List.isPrefixOf]
  | cons c rest ih => simp [List.isPrefixOf, ih]

theorem string_ne_append (a s c : String)
    (h : a.data.isPrefixOf c.data = false) : c ≠ a ++ s := by
  intro he
  rw [he, string_data_append, isPrefixOf_self_append] at h
  simp at h

theorem contains_create (fs : List String) (p : String) :
    ((if fs.contains p then fs else p :: fs).contains p) = true := by
  by_cases h : p ∈ fs <;> simp [h]

theorem mem_create (fs : List String) (p : String) :
    p ∈ (if p ∈ fs then fs else p :: fs) := by
  by_cases h : p ∈ fs <;> simp [h]

theorem contains_filter_ne (l : List String) (p : String) :
    (l.filter (fun q => q != p)).contains p = false := by
  induction l with
  | nil => rfl
  | cons c t ih =>
    by_cases h : c = p
    · simp [List.filter_cons, h, ih]
    · have hcp : (c != p) = true := by simp [h]
      have hpc : (p == c) = false := by
        simp only [beq_eq_false_iff_ne, ne_eq]
        exact fun hh => h hh.symm
      simp only [List.filter_cons, hcp, if_pos, List.contains_cons, hpc, ih,
        Bool.false_or, Bool.or_false]

theorem aggregate_foldl_aux (l : List FileResult) (acc : Int × Int) :
    l.foldl
      (fun acc r =>
        if r.status == "completed" then (acc.1 + r.originalSize, acc.2 + r.compressedSize)
        else acc)
      acc =
    (acc.1 + ((l.filter (fun r => r.status == "completed")).map
                (fun r => r.originalSize)).sum,
     acc.2 + ((l.filter (fun r => r.status == "completed")).map
                (fun r => r.compressedSize)).sum) := by
  induction l generalizing acc with
  | nil => simp
  | cons r t ih =>
    by_cases h : r.status == "completed"
    · simp only [List.foldl_cons, h, if_pos, List.filter_cons, List.map_cons, List.sum_cons]
      rw [ih]
      simp only [Prod.mk.injEq]
      constructor <;> ring
    · simp only [Bool.not_eq_true] at h
      simp only [List.foldl_cons, h, if_neg, Bool.false_eq_true, not_false_eq_true,
        List.filter_cons_of_neg, ih]

theorem aggregate_eq (l : List FileResult) :
    aggregate l =
      (((l.filter (fun r => r.status == "completed")).map (fun r => r.originalSize)).sum,
       ((l.filter (fun r => r.status == "completed")).map (fun r => r.compressedSize)).sum) := by
  have h := aggregate_foldl_aux l (0, 0)
  simpa [aggregate] using h

theorem normalizeOptions_imageDPI (o : CompressionOptions) :
    (normalizeOptions (some o)).imageDPI = if o.imageDPI ≤ 0 then 150 else o.imageDPI := by
  unfold normalizeOptions
  by_cases hv : o.pdfVersion = "" <;> by_cases hd : o.imageDPI ≤ 0 <;>
    by_cases hq : o.imageQuality ≤ 0 <;> simp [hv, hd, hq]

theorem normalizeOptions_imageQuality (o : CompressionOptions) :
    (normalizeOptions (some o)).imageQuality =
      if o.imageQuality ≤ 0 then 85 else o.imageQuality := by
  unfold normalizeOptions
  by_cases hv : o.pdfVersion = "" <;> by_cases hd : o.imageDPI ≤ 0 <;>
    by_cases hq : o.imageQuality ≤ 0 <;> simp [hv, hd, hq]

theorem normalizeOptions_pdfVersion (o : CompressionOptions) :
    (normalizeOptions (some o)).pdfVersion =
      if o.pdfVersion = "" then "1.4" else o.pdfVersion := by
  unfold normalizeOptions
  by_cases hv : o.pdfVersion = "" <;> by_cases hd : o.imageDPI ≤ 0 <;>
    by_cases hq : o.imageQuality ≤ 0 <;> simp [hv, hd, hq]

theorem normalizeOptions_convertToGrayscale (o : CompressionOptions) :
    (normalizeOptions (some o)).convertToGrayscale = o.convertToGrayscale := by
  unfold normalizeOptions
  by_cases hv : o.pdfVersion = "" <;> by_cases hd : o.imageDPI ≤ 0 <;>
    by_cases hq : o.imageQuality ≤ 0 <;> simp [hv, hd, hq]

theorem convertToGrayscale_ok (engine : Engine) (st : SysState) (inP outP : String)
    (h : (engine (grayscaleArgs inP outP)).exitOk = true) :
    (convertToGrayscale engine st inP outP).2 = .ok () := by
  have e2 : (invokeEngine engine st (grayscaleArgs inP outP) outP).2 =
      engine (grayscaleArgs inP outP) := rfl
  simp [convertToGrayscale, e2, h]

theorem convertToGrayscale_fail (engine : Engine) (st : SysState) (inP outP : String)
    (h : (engine (grayscaleArgs inP outP)).exitOk = false) :
    (convertToGrayscale engine st inP outP).2 =
      .error ("grayscale conversion failed: " ++ (engine (grayscaleArgs inP outP)).errString ++
              ", output: " ++ (engine (grayscaleArgs inP outP)).output) := by
  have e2 : (invokeEngine engine st (grayscaleArgs inP outP) outP).2 =
      engine (grayscaleArgs inP outP) := rfl
  simp [convertToGrayscale, e2, h]

theorem convertToGrayscale_fst (engine : Engine) (st : SysState) (inP outP : String) :
    (convertToGrayscale engine st inP outP).1 =
      (invokeEngine engine st (grayscaleArgs inP outP) outP).1 := by
  simp only [convertToGrayscale]
  split <;> rfl

theorem execGhostscript_ok (engine : Engine) (st : SysState) (args : List String)
    (outputPath : String)
    (h1 : (engine args).exitOk = true) (h2 : (engine args).writesOutput = true) :
    (execGhostscript engine st args outputPath).2 = .ok () := by
  simp [execGhostscript, invokeEngine, h1, h2, mem_create]

theorem compressPDF_temp_removed (engine : Engine)
    (gsPath inputPath outputPath level : String) (o : CompressionOptions) (st : SysState)
    (hgs : gsPath ≠ "") (hcg : o.convertToGrayscale = true)
    (hok : (engine (grayscaleArgs inputPath
        (goReplaceOnce inputPath ".pdf" "_grayscale_temp.pdf"))).exitOk = true) :
    (compressPDF gsPath engine inputPath outputPath level (some o) st).1.fs.contains
      (goReplaceOnce inputPath ".pdf" "_grayscale_temp.pdf") = false := by
  have hng : (normalizeOptions (some o)).convertToGrayscale = true := by
    rw [normalizeOptions_convertToGrayscale, hcg]
  simp only [compressPDF, if_neg hgs, hng, if_pos]
  rw [convertToGrayscale_ok _ _ _ _ hok]
  exact contains_filter_ne _ _

theorem replaceFirst_self_append (old new b : List Char) :
    replaceFirst old new (old ++ b) = new ++ b := by
  cases old with
  | nil =>
    cases b with
    | nil => simp [replaceFirst]
    | cons c rest => simp [replaceFirst, List.isPrefixOf]
  | cons o1 ot =>
    have hp := isPrefixOf_self_append (o1 :: ot) b
    have hdrop : ((o1 :: ot) ++ b).drop (o1 :: ot).length = b := List.drop_left _ _
    rw [List.cons_append] at hp hdrop ⊢
    rw [replaceFirst, if_pos hp, hdrop]

theorem replaceFirst_of_not_contains (old new : List Char) :
    ∀ s : List Char, containsSub old s = false → replaceFirst old new s = s := by
  intro s
  induction s with
  | nil =>
    intro h
    simp only [containsSub] at h
    simp [replaceFirst, h]
  | cons c rest ih =>
    intro h
    simp only [containsSub, Bool.or_eq_false_iff] at h
    rw [replaceFirst, if_neg (by simp [h.1]), ih h.2]

theorem replaceFirst_first_occurrence (old new b : List Char) :
    ∀ a : List Char,
      (∀ i, i < a.length → old.isPrefixOf ((a ++ old ++ b).drop i) = false) →
      replaceFirst old new (a ++ old ++ b) = a ++ new ++ b := by
  intro a
  induction a with
  | nil =>
    intro _
    simpa using replaceFirst_self_append old new b
  | cons c tl ih =>
    intro h
    have h0 : old.isPrefixOf (c :: (tl ++ old ++ b)) = false := by
      have := h 0 (by simp)
      simpa using this
    have hih : ∀ i, i < tl.length → old.isPrefixOf ((tl ++ old ++ b).drop i) = false := by
      intro i hi
      have := h (i + 1) (by simpa using Nat.succ_lt_succ hi)
      simpa [List.drop_succ_cons] using this
    calc replaceFirst old new ((c :: tl) ++ old ++ b)
        = replaceFirst old new (c :: (tl ++ old ++ b)) := by simp
      _ = c :: replaceFirst old new (tl ++ old ++ b) := by
          rw [replaceFirst, if_neg (fun hc => by rw [hc] at h0; exact Bool.noConfusion h0)]
      _ = c :: (tl ++ new ++ b) := by rw [ih hih]
      _ = (c :: tl) ++ new ++ b := by simp

theorem compressFonts_not_mem_baseArgs (level : String) (o : CompressionOptions) :
    "-dCompressFonts=true" ∉ baseArgs level o := by
  intro h
  simp only [baseArgs, List.mem_cons, List.not_mem_nil, or_false] at h
  rcases h with h|h|h|h|h|h|h|h|h|h|h|h|h|h|h|h|h|h|h|h
  all_goals first
    | exact absurd h (by decide)
    | exact (string_ne_append _ _ _ (by decide)) h

theorem compressStreams_not_mem_baseArgs (level : String) (o : CompressionOptions) :
    "-dCompressStreams=true" ∉ baseArgs level o := by
  intro h
  simp only [baseArgs, List.mem_cons, List.not_mem_nil, or_false] at h
  rcases h with h|h|h|h|h|h|h|h|h|h|h|h|h|h|h|h|h|h|h|h
  all_goals first
    | exact absurd h (by decide)
    | exact (string_ne_append _ _ _ (by decide)) h

/-! ## Claim theorems -/

/-- C5: a single engine invocation succeeds exactly when the process exits
with code 0 and the declared output file exists afterwards; a non-zero
exit yields the ghostscript-failed error carrying the captured combined
output; a zero exit with the output absent yields the distinct
output-missing error; and the invocation log grows by exactly one entry,
so there is no retry at this layer. -/
theorem engine_invocation_classification (engine : Engine) (st : SysState)
    (args : List String) (outputPath : String) :
    ((execGhostscript engine st args outputPath).2 = .ok () ↔
      (engine args).exitOk = true ∧
      outputPath ∈ (invokeEngine engine st args outputPath).1.fs) ∧
    ((engine args).exitOk = false →
      (execGhostscript engine st args outputPath).2 =
        .error (.execFailed (engine args).errString (engine args).output)) ∧
    ((engine args).exitOk = true →
      outputPath ∉ (invokeEngine engine st args outputPath).1.fs →
      (execGhostscript engine st args outputPath).2 = .error .outputMissing) ∧
    (∀ e out, (CompressError.outputMissing : CompressError) ≠ .execFailed e out) ∧
    (execGhostscript engine st args outputPath).1.invocations = st.invocations ++ [args] := by
  have e2 : (invokeEngine engine st args outputPath).2 = engine args := rfl
  refine ⟨?_, ?_, ?_, ?_, ?_⟩
  · cases h1 : (engine args).exitOk <;>
      by_cases h2 : outputPath ∈ (invokeEngine engine st args outputPath).1.fs <;>
      simp [execGhostscript, e2, h1, h2]
  · intro h1
    simp [execGhostscript, e2, h1]
  · intro h1 h2
    simp [execGhostscript, e2, h1, h2]
  · intro e out h
    cases h
  · simp only [execGhostscript]
    split <;> (try split) <;> rfl

/-- C5 witness: the classification applied to a concrete failing engine. -/
theorem engine_invocation_classification_witness :
    (execGhostscript
      (fun _ => { exitOk := false, errString := "exit status 1", output := "boom",
                  writesOutput := false })
      { fs := [], invocations := [] } ["-dBATCH"] "out.pdf").2 =
      .error (.execFailed "exit status 1" "boom") :=
  (engine_invocation_classification
    (fun _ => { exitOk := false, errString := "exit status 1", output := "boom",
                writesOutput := false })
    { fs := [], invocations := [] } ["-dBATCH"] "out.pdf").2.1 rfl

/-- C9: argument construction is pure and deterministic; identical profile
and options inputs produce identical argument vectors, element for
element, with no dependence on any state (buildArgs and fullArgs are
functions of their arguments alone). -/
theorem buildArgs_deterministic (l1 l2 outputPath actualInputPath : String)
    (o1 o2 : CompressionOptions) (hl : l1 = l2) (ho : o1 = o2) :
    buildArgs l1 o1 = buildArgs l2 o2 ∧
    fullArgs l1 o1 outputPath actualInputPath = fullArgs l2 o2 outputPath actualInputPath := by
  subst hl
  subst ho
  exact ⟨rfl, rfl⟩

/-- C9 witness: determinism at a concrete profile and options value. -/
theorem buildArgs_deterministic_witness :
    buildArgs "ultra" DefaultCompressionOptions = buildArgs "ultra" DefaultCompressionOptions ∧
    fullArgs "ultra" DefaultCompressionOptions "out.pdf" "in.pdf" =
      fullArgs "ultra" DefaultCompressionOptions "out.pdf" "in.pdf" :=
  buildArgs_deterministic "ultra" "ultra" "out.pdf" "in.pdf"
    DefaultCompressionOptions DefaultCompressionOptions rfl rfl

/-- C6: the three profiles map to three pairwise-distinct quality presets
(ultra to /screen, aggressive to /ebook, the Balanced level good_enough to
/printer), every unknown profile value falls into the default branch and
gets the Balanced preset /printer, and the extra stream and font
compression flags are present in the built argument vector if and only if
the profile is ultra. -/
theorem profile_preset_mapping (o : CompressionOptions) (level : String) :
    pdfSettingsFor "ultra" = "/screen" ∧
    pdfSettingsFor "aggressive" = "/ebook" ∧
    pdfSettingsFor "good_enough" = "/printer" ∧
    (level ≠ "ultra" → level ≠ "aggressive" → pdfSettingsFor level = "/printer") ∧
    ("/screen" ≠ "/ebook" ∧ "/screen" ≠ "/printer" ∧ "/ebook" ≠ "/printer") ∧
    (("-dCompressFonts=true" ∈ buildArgs level o ∧
      "-dCompressStreams=true" ∈ buildArgs level o) ↔ level = "ultra") := by
  refine ⟨rfl, rfl, rfl, ?_, by decide, ?_, ?_⟩
  · intro h1 h2
    simp [pdfSettingsFor, h1, h2]
  · rintro ⟨hcf, _⟩
    by_contra hne
    simp only [buildArgs, if_neg hne] at hcf
    split at hcf <;> split at hcf <;>
      simp [compressFonts_not_mem_baseArgs level o] at hcf
  · intro he
    subst he
    simp only [buildArgs, if_pos rfl]
    constructor <;> (split <;> split <;> simp)

/-- C6 witness: the conditional clauses at concrete levels. -/
theorem profile_preset_mapping_witness :
    pdfSettingsFor "unknown_profile" = "/printer" ∧
    ("-dCompressFonts=true" ∈ buildArgs "ultra" DefaultCompressionOptions) :=
  ⟨(profile_preset_mapping DefaultCompressionOptions "unknown_profile").2.2.2.1
      (by decide) (by decide),
   ((profile_preset_mapping DefaultCompressionOptions "ultra").2.2.2.2.2.2 rfl).1⟩

/-- C8 counterexample: an imageQuality of 150 lies outside the 1 to 100
range the claim names, yet the validation prologue keeps it unchanged
instead of defaulting it to 85 (the source only tests ImageQuality leq 0). -/
theorem options_quality_above_range_kept :
    (normalizeOptions (some
      { imageDPI := 150, imageQuality := 150, pdfVersion := "1.4",
        removeMetadata := false, embedFonts := true, generateThumbnails := false,
        convertToGrayscale := false })).imageQuality = 150 ∧
    ¬ ((150 : Int) ≤ 100) :=
  ⟨rfl, by decide⟩

/-- C8 (amended): invalid options are recovered, never fatal: a nil options
value is replaced by the defaults; an empty version string becomes exactly
1.4, a non-positive DPI becomes exactly 150 and a non-positive quality
becomes exactly 85, while in-range values pass through unchanged, but a
quality above 100 is also passed through unchanged; and for every options
value the compression proceeds (with a well-behaved engine it succeeds)
rather than returning an options error. -/
theorem options_recovery (o : CompressionOptions) (opts : Option CompressionOptions) :
    normalizeOptions none = DefaultCompressionOptions ∧
    0 < (normalizeOptions opts).imageDPI ∧
    (normalizeOptions opts).pdfVersion ≠ "" ∧
    (o.imageDPI ≤ 0 → (normalizeOptions (some o)).imageDPI = 150) ∧
    (0 < o.imageDPI → (normalizeOptions (some o)).imageDPI = o.imageDPI) ∧
    (o.pdfVersion = "" → (normalizeOptions (some o)).pdfVersion = "1.4") ∧
    (o.pdfVersion ≠ "" → (normalizeOptions (some o)).pdfVersion = o.pdfVersion) ∧
    (o.imageQuality ≤ 0 → (normalizeOptions (some o)).imageQuality = 85) ∧
    (0 < o.imageQuality → (normalizeOptions (some o)).imageQuality = o.imageQuality) ∧
    (∀ (engine : Engine) (gsPath inputPath outputPath level : String) (st : SysState),
      gsPath ≠ "" →
      (∀ args, (engine args).exitOk = true) →
      (∀ args, (engine args).writesOutput = true) →
      (compressPDF gsPath engine inputPath outputPath level opts st).2 = .ok ()) := by
  refine ⟨rfl, ?_, ?_, ?_, ?_, ?_, ?_, ?_, ?_, ?_⟩
  · cases opts with
    | none => decide
    | some oo => rw [normalizeOptions_imageDPI] ; split_ifs <;> omega
  · cases opts with
    | none => decide
    | some oo =>
      rw [normalizeOptions_pdfVersion]
      split_ifs with hv
      · decide
      · exact hv
  · intro hd
    rw [normalizeOptions_imageDPI, if_pos hd]
  · intro hd
    rw [normalizeOptions_imageDPI, if_neg (by omega)]
  · intro hv
    rw [normalizeOptions_pdfVersion, if_pos hv]
  · intro hv
    rw [normalizeOptions_pdfVersion, if_neg hv]
  · intro hq
    rw [normalizeOptions_imageQuality, if_pos hq]
  · intro hq
    rw [normalizeOptions_imageQuality, if_neg (by omega)]
  · intro engine gsPath inputPath outputPath level st hgs hok hwrites
    simp only [compressPDF, if_neg hgs]
    split
    · rw [convertToGrayscale_ok _ _ _ _ (hok _)]
      exact execGhostscript_ok _ _ _ _ (hok _) (hwrites _)
    · exact execGhostscript_ok _ _ _ _ (hok _) (hwrites _)

/-- C8 witness: the amended recovery facts at a concrete out-of-shape
options value and a concrete well-behaved engine. -/
theorem options_recovery_witness :
    (normalizeOptions (some
      { imageDPI := 0, imageQuality := -3, pdfVersion := "",
        removeMetadata := false, embedFonts := true, generateThumbnails := false,
        convertToGrayscale := false })).imageDPI = 150 ∧
    (normalizeOptions (some
      { imageDPI := 0, imageQuality := -3, pdfVersion := "",
        removeMetadata := false, embedFonts := true, generateThumbnails := false,
        convertToGrayscale := false })).pdfVersion = "1.4" ∧
    (normalizeOptions (some
      { imageDPI := 0, imageQuality := -3, pdfVersion := "",
        removeMetadata := false, embedFonts := true, generateThumbnails := false,
        convertToGrayscale := false })).imageQuality = 85 ∧
    (compressPDF "gs"
      (fun _ => { exitOk := true, errString := "", output := "", writesOutput := true })
      "in.pdf" "out.pdf" "good_enough"
      (some { imageDPI := 0, imageQuality := -3, pdfVersion := "",
              removeMetadata := false, embedFonts := true, generateThumbnails := false,
              convertToGrayscale := false })
      { fs := ["in.pdf"], invocations := [] }).2 = .ok () :=
  ⟨((options_recovery
      { imageDPI := 0, imageQuality := -3, pdfVersion := "",
        removeMetadata := false, embedFonts := true, generateThumbnails := false,
        convertToGrayscale := false }
      (some { imageDPI := 0, imageQuality := -3, pdfVersion := "",
              removeMetadata := false, embedFonts := true, generateThumbnails := false,
              convertToGrayscale := false })).2.2.2.1 (by decide)),
   ((options_recovery
      { imageDPI := 0, imageQuality := -3, pdfVersion := "",
        removeMetadata := false, embedFonts := true, generateThumbnails := false,
        convertToGrayscale := false }
      (some { imageDPI := 0, imageQuality := -3, pdfVersion := "",
              removeMetadata := false, embedFonts := true, generateThumbnails := false,
              convertToGrayscale := false })).2.2.2.2.2.1 rfl),
   ((options_recovery
      { imageDPI := 0, imageQuality := -3, pdfVersion := "",
        removeMetadata := false, embedFonts := true, generateThumbnails := false,
        convertToGrayscale := false }
      (some { imageDPI := 0, imageQuality := -3, pdfVersion := "",
              removeMetadata := false, embedFonts := true, generateThumbnails := false,
              convertToGrayscale := false })).2.2.2.2.2.2.2.1 (by decide)),
   ((options_recovery
      { imageDPI := 0, imageQuality := -3, pdfVersion := "",
        removeMetadata := false, embedFonts := true, generateThumbnails := false,
        convertToGrayscale := false }
      (some { imageDPI := 0, imageQuality := -3, pdfVersion := "",
              removeMetadata := false, embedFonts := true, generateThumbnails := false,
              convertToGrayscale := false })).2.2.2.2.2.2.2.2.2
      (fun _ => { exitOk := true, errString := "", output := "", writesOutput := true })
      "gs" "in.pdf" "out.pdf" "good_enough" { fs := ["in.pdf"], invocations := [] }
      (by decide) (fun _ => rfl) (fun _ => rfl))⟩

/-- C2 counterexample: when the grayscale pre-pass itself fails after
leaving a partially written intermediate on disk, CompressPDF returns
before the deferred os.Remove is registered, so the intermediate file
survives the failed job; the claim says it is deleted on every exit path. -/
theorem grayscale_leak_counterexample :
    (compressPDF "gs"
      (fun _ => { exitOk := false, errString := "exit status 1", output := "boom",
                  writesOutput := true })
      "a.pdf" "out.pdf" "good_enough"
      (some { imageDPI := 150, imageQuality := 85, pdfVersion := "1.4",
              removeMetadata := false, embedFonts := true, generateThumbnails := false,
              convertToGrayscale := true })
      { fs := ["a.pdf"], invocations := [] }).1.fs.contains "a_grayscale_temp.pdf" = true ∧
    (compressPDF "gs"
      (fun _ => { exitOk := false, errString := "exit status 1", output := "boom",
                  writesOutput := true })
      "a.pdf" "out.pdf" "good_enough"
      (some { imageDPI := 150, imageQuality := 85, pdfVersion := "1.4",
              removeMetadata := false, embedFonts := true, generateThumbnails := false,
              convertToGrayscale := true })
      { fs := ["a.pdf"], invocations := [] }).2 =
      .error (.grayscaleFailed "grayscale conversion failed: exit status 1, output: boom") :=
  ⟨rfl, rfl⟩

/-- C2 (amended): the grayscale intermediate is deleted on every exit path
reached after a successful grayscale conversion, whether the main
compression then fails, reports a missing output, or succeeds; but when
the grayscale pre-pass itself fails, CompressPDF returns before the
deferred removal is registered and no cleanup of the intermediate runs. -/
theorem grayscale_cleanup_after_success (engine : Engine)
    (gsPath inputPath outputPath level : String) (o : CompressionOptions) (st : SysState)
    (hgs : gsPath ≠ "") (hcg : o.convertToGrayscale = true)
    (hok : (engine (grayscaleArgs inputPath
        (goReplaceOnce inputPath ".pdf" "_grayscale_temp.pdf"))).exitOk = true) :
    (compressPDF gsPath engine inputPath outputPath level (some o) st).1.fs.contains
      (goReplaceOnce inputPath ".pdf" "_grayscale_temp.pdf") = false :=
  compressPDF_temp_removed engine gsPath inputPath outputPath level o st hgs hcg hok

/-- C2 witness: guaranteed cleanup at a concrete successful run. -/
theorem grayscale_cleanup_after_success_witness :
    (compressPDF "gs"
      (fun _ => { exitOk := true, errString := "", output := "", writesOutput := true })
      "a.pdf" "out.pdf" "good_enough"
      (some { imageDPI := 150, imageQuality := 85, pdfVersion := "1.4",
              removeMetadata := false, embedFonts := true, generateThumbnails := false,
              convertToGrayscale := true })
      { fs := ["a.pdf"], invocations := [] }).1.fs.contains "a_grayscale_temp.pdf" = false := by
  have h := grayscale_cleanup_after_success
    (fun _ => { exitOk := true, errString := "", output := "", writesOutput := true })
    "gs" "a.pdf" "out.pdf" "good_enough"
    { imageDPI := 150, imageQuality := 85, pdfVersion := "1.4",
      removeMetadata := false, embedFonts := true, generateThumbnails := false,
      convertToGrayscale := true }
    { fs := ["a.pdf"], invocations := [] }
    (by decide) rfl rfl
  simpa using h

/-- C10: the grayscale intermediate path is the input path with the first
occurrence of the substring .pdf (anywhere in the path) replaced by
_grayscale_temp.pdf; for an input path containing no .pdf substring the
replacement is the identity, so the pre-pass directs its output at the
input path itself (overwriting the original) and the deferred cleanup then
deletes the input file. -/
theorem grayscale_temp_path_semantics (a b : List Char) (s : String)
    (engine : Engine) (gsPath inputPath outputPath level : String)
    (o : CompressionOptions) (st : SysState)
    (hfirst : ∀ i, i < a.length →
      (".pdf".data).isPrefixOf ((a ++ ".pdf".data ++ b).drop i) = false)
    (hnosub : containsSub ".pdf".data s.data = false)
    (hnosubIn : containsSub ".pdf".data inputPath.data = false)
    (hgs : gsPath ≠ "") (hcg : o.convertToGrayscale = true)
    (hok : (engine (grayscaleArgs inputPath inputPath)).exitOk = true) :
    replaceFirst ".pdf".data "_grayscale_temp.pdf".data (a ++ ".pdf".data ++ b) =
      a ++ "_grayscale_temp.pdf".data ++ b ∧
    goReplaceOnce s ".pdf" "_grayscale_temp.pdf" = s ∧
    goReplaceOnce inputPath ".pdf" "_grayscale_temp.pdf" = inputPath ∧
    (compressPDF gsPath engine inputPath outputPath level (some o) st).1.fs.contains
      inputPath = false := by
  have hidIn : goReplaceOnce inputPath ".pdf" "_grayscale_temp.pdf" = inputPath := by
    unfold goReplaceOnce
    rw [replaceFirst_of_not_contains _ _ _ hnosubIn]
  have hok2 : (engine (grayscaleArgs inputPath
      (goReplaceOnce inputPath ".pdf" "_grayscale_temp.pdf"))).exitOk = true := by
    rw [hidIn]
    exact hok
  refine ⟨replaceFirst_first_occurrence _ _ _ a hfirst, ?_, hidIn, ?_⟩
  · unfold goReplaceOnce
    rw [replaceFirst_of_not_contains _ _ _ hnosub]
  · have h := compressPDF_temp_removed engine gsPath inputPath outputPath level o st
      hgs hcg hok2
    rw [hidIn] at h
    exact h

/-- C10 witness: a concrete extensionless path doc_txt is left unchanged by
the replacement, and a completed grayscale job on it deletes the input. -/
theorem grayscale_temp_path_semantics_witness :
    goReplaceOnce "doc_txt" ".pdf" "_grayscale_temp.pdf" = "doc_txt" ∧
    (compressPDF "gs"
      (fun _ => { exitOk := true, errString := "", output := "", writesOutput := true })
      "doc_txt" "out.pdf" "good_enough"
      (some { imageDPI := 150, imageQuality := 85, pdfVersion := "1.4",
              removeMetadata := false, embedFonts := true, generateThumbnails := false,
              convertToGrayscale := true })
      { fs := ["doc_txt"], invocations := [] }).1.fs.contains "doc_txt" = false := by
  have h := grayscale_temp_path_semantics [] [] "doc_txt"
    (fun _ => { exitOk := true, errString := "", output := "", writesOutput := true })
    "gs" "doc_txt" "out.pdf" "good_enough"
    { imageDPI := 150, imageQuality := 85, pdfVersion := "1.4",
      removeMetadata := false, embedFonts := true, generateThumbnails := false,
      convertToGrayscale := true }
    { fs := ["doc_txt"], invocations := [] }
    (by intro i hi; simp at hi) (by decide) (by decide) (by decide) rfl rfl
  exact ⟨h.2.2.1, h.2.2.2⟩

theorem batchProcess_no_ghostscript (engine : Engine) (statSize : String → Option Int)
    (timestamp level : String) (opts : Option CompressionOptions) :
    ∀ (items : List (String × String)) (st : SysState),
      batchProcess "" engine statSize timestamp level opts items st =
        (items.map (fun it =>
          ({ fileID := it.1, originalFilename := goBase it.2, compressedFilename := "",
             originalSize := 0, compressedSize := 0, status := "error",
             error := compressionErrorMessage "processing" it.2
               CompressError.ghostscriptNotFound.message } : FileResult)), st) := by
  intro items
  induction items with
  | nil => intro st; rfl
  | cons it rest ih =>
    intro st
    obtain ⟨id, path⟩ := it
    have hp : processSingleFile "" engine statSize timestamp id path level opts st =
        (st, .error .ghostscriptNotFound) := rfl
    simp only [batchProcess, hp, List.map_cons, ih st]

theorem mem_batchProcess_no_ghostscript (engine : Engine) (statSize : String → Option Int)
    (timestamp level : String) (opts : Option CompressionOptions)
    (items : List (String × String)) (st : SysState) (r : FileResult)
    (hr : r ∈ (batchProcess "" engine statSize timestamp level opts items st).1) :
    r.status = "error" := by
  rw [batchProcess_no_ghostscript] at hr
  simp only [List.mem_map] at hr
  obtain ⟨it, _, rfl⟩ := hr
  rfl

/-- C1 counterexample: a one-file batch with the engine binary missing does
not short-circuit pre-batch: the response reports success true and carries
one (error) outcome, where the claim requires success false and zero
outcomes. -/
theorem engine_missing_counterexample :
    (serviceCompressPDF ""
      (fun _ => { exitOk := true, errString := "", output := "", writesOutput := true })
      (fun _ => some 1) "20250101_000000" (fun i => String.mk (List.replicate i 'i'))
      (.ok none)
      { files := ["a.pdf"], compressionLevel := "", advancedOptions := none }
      { fs := ["a.pdf"], invocations := [] }).success = true ∧
    (serviceCompressPDF ""
      (fun _ => { exitOk := true, errString := "", output := "", writesOutput := true })
      (fun _ => some 1) "20250101_000000" (fun i => String.mk (List.replicate i 'i'))
      (.ok none)
      { files := ["a.pdf"], compressionLevel := "", advancedOptions := none }
      { fs := ["a.pdf"], invocations := [] }).files.length = 1 :=
  ⟨rfl, rfl⟩

/-- C1 (amended): a missing engine binary is detected per job rather than
pre-batch: the batch still dispatches, and the response reports success
true with exactly the per-file error outcomes — one Error outcome per
submitted file, each carrying the NewCompressionError wrapping
(compression processing failed for file PATH) of the Ghostscript-not-found
message — no Completed outcome, and zero byte totals. -/
theorem engine_missing_per_file (engine : Engine) (statSize : String → Option Int)
    (timestamp : String) (ids : Nat → String) (prefs : Except Unit (Option String))
    (request : CompressionRequest) (st : SysState)
    (hne : request.files ≠ []) :
    (serviceCompressPDF "" engine statSize timestamp ids prefs request st).success = true ∧
    (serviceCompressPDF "" engine statSize timestamp ids prefs request st).files.length =
      request.files.length ∧
    (serviceCompressPDF "" engine statSize timestamp ids prefs request st).files =
      request.files.enum.map (fun ip =>
        { fileID := ids ip.1, originalFilename := goBase ip.2, compressedFilename := "",
          originalSize := 0, compressedSize := 0, status := "error",
          error := compressionErrorMessage "processing" ip.2
            CompressError.ghostscriptNotFound.message }) ∧
    (∀ r ∈ (serviceCompressPDF "" engine statSize timestamp ids prefs request st).files,
      r.status = "error") ∧
    ((serviceCompressPDF "" engine statSize timestamp ids prefs request st).files.filter
      (fun r => r.status == "completed")) = [] ∧
    (serviceCompressPDF "" engine statSize timestamp ids prefs request st).totalOriginalSize
      = 0 ∧
    (serviceCompressPDF "" engine statSize timestamp ids prefs request st).totalCompressedSize
      = 0 := by
  have hfe : request.files.isEmpty = false := by
    cases hf : request.files with
    | nil => exact absurd hf hne
    | cons a l => rfl
  have hfilter : ∀ (items : List (String × String)) (st2 : SysState),
      ((batchProcess "" engine statSize timestamp
          (resolveCompressionLevel request.compressionLevel prefs)
          request.advancedOptions items st2).1.filter
        (fun r => r.status == "completed")) = [] := by
    intro items st2
    rw [List.filter_eq_nil_iff]
    intro r hr
    have h := mem_batchProcess_no_ghostscript engine statSize timestamp _ _ items st2 r hr
    simp [h]
  refine ⟨?_, ?_, ?_, ?_, ?_, ?_, ?_⟩
  · simp only [serviceCompressPDF, hfe]
    rfl
  · simp only [serviceCompressPDF, hfe, Bool.false_eq_true, if_false,
      batchProcess_no_ghostscript]
    simp
  · simp only [serviceCompressPDF, hfe, Bool.false_eq_true, if_false,
      batchProcess_no_ghostscript]
    rw [List.map_map]
    rfl
  · intro r hr
    simp only [serviceCompressPDF, hfe, Bool.false_eq_true, if_false] at hr
    exact mem_batchProcess_no_ghostscript engine statSize timestamp _ _ _ _ r hr
  · simp only [serviceCompressPDF, hfe, Bool.false_eq_true, if_false]
    exact hfilter _ _
  · simp only [serviceCompressPDF, hfe, Bool.false_eq_true, if_false, aggregate_eq,
      hfilter _ _]
    rfl
  · simp only [serviceCompressPDF, hfe, Bool.false_eq_true, if_false, aggregate_eq,
      hfilter _ _]
    rfl

/-- C1 witness: the amended statement at a concrete two-file batch. -/
theorem engine_missing_per_file_witness :
    (serviceCompressPDF ""
      (fun _ => { exitOk := true, errString := "", output := "", writesOutput := true })
      (fun _ => some 1) "20250101_000000" (fun i => String.mk (List.replicate i 'i'))
      (.ok none)
      { files := ["a.pdf", "b.pdf"], compressionLevel := "", advancedOptions := none }
      { fs := ["a.pdf", "b.pdf"], invocations := [] }).files.length = 2 :=
  (engine_missing_per_file
    (fun _ => { exitOk := true, errString := "", output := "", writesOutput := true })
    (fun _ => some 1) "20250101_000000" (fun i => String.mk (List.replicate i 'i'))
    (.ok none)
    { files := ["a.pdf", "b.pdf"], compressionLevel := "", advancedOptions := none }
    { fs := ["a.pdf", "b.pdf"], invocations := [] }
    (by simp)).2.1

/-- C3 counterexample: a dispatched application-layer batch with no
Completed outcomes has zero total original bytes, yet its overall ratio is
NaN from the unguarded 0/0 float division, not the 0 the claim requires. -/
theorem ratio_nan_counterexample :
    (compressPDFWithContext ""
      (fun _ => { exitOk := true, errString := "", output := "", writesOutput := true })
      (fun _ => some 1) "20250101_000000" (fun i => String.mk (List.replicate i 'i'))
      (.ok none)
      { files := ["a.pdf"], compressionLevel := "", advancedOptions := none }
      { fs := ["a.pdf"], invocations := [] }).1.totalOriginalSize = 0 ∧
    (compressPDFWithContext ""
      (fun _ => { exitOk := true, errString := "", output := "", writesOutput := true })
      (fun _ => some 1) "20250101_000000" (fun i => String.mk (List.replicate i 'i'))
      (.ok none)
      { files := ["a.pdf"], compressionLevel := "", advancedOptions := none }
      { fs := ["a.pdf"], invocations := [] }).1.overallCompressionRatio = GoFloat.nan ∧
    GoFloat.nan ≠ GoFloat.fin 0 :=
  ⟨rfl, rfl, by decide⟩

/-- C3 (amended): the dispatcher-layer collectResults guards the division,
yielding ratio 0 whenever the Completed outcomes carry zero total original
bytes and a finite ratio for every input; the application-layer batch
result instead divides unconditionally, and a dispatched batch whose
Completed totals are both zero gets ratio NaN. -/
theorem overall_ratio_zero_guard (results : List FileResult)
    (hagg : (aggregate results).1 = 0) :
    (collectResults results).overallCompressionRatio = GoFloat.fin 0 ∧
    (∀ rs : List FileResult,
      ∃ q, (collectResults rs).overallCompressionRatio = GoFloat.fin q) ∧
    (∀ (gsPath : String) (engine : Engine) (statSize : String → Option Int)
       (timestamp : String) (ids : Nat → String) (prefs : Except Unit (Option String))
       (request : CompressionRequest) (st : SysState),
      request.files ≠ [] →
      (compressPDFWithContext gsPath engine statSize timestamp ids prefs request
        st).1.totalOriginalSize = 0 →
      (compressPDFWithContext gsPath engine statSize timestamp ids prefs request
        st).1.totalCompressedSize = 0 →
      (compressPDFWithContext gsPath engine statSize timestamp ids prefs request
        st).1.overallCompressionRatio = GoFloat.nan) := by
  refine ⟨?_, ?_, ?_⟩
  · simp [collectResults, hagg]
  · intro rs
    by_cases hpos : 0 < (aggregate rs).1
    · refine ⟨((((aggregate rs).1 - (aggregate rs).2 : ℤ) : ℚ) / (((aggregate rs).1 : ℤ) : ℚ)) * 100, ?_⟩
      have hne0 : ¬ ((aggregate rs).1 = 0) := by omega
      simp [collectResults, hpos, goDivInt, GoFloat.mul100, hne0]
    · exact ⟨0, by simp [collectResults, hpos]⟩
  · intro gsPath engine statSize timestamp ids prefs request st hne hz1 hz2
    have hfe : request.files.isEmpty = false := by
      cases hf : request.files with
      | nil => exact absurd hf hne
      | cons a l => rfl
    simp only [compressPDFWithContext, hfe, Bool.false_eq_true, if_false] at hz1 hz2 ⊢
    rw [hz1, hz2]
    rfl

/-- C3 witness: the guard facts at concrete inputs. -/
theorem overall_ratio_zero_guard_witness :
    (collectResults []).overallCompressionRatio = GoFloat.fin 0 :=
  (overall_ratio_zero_guard [] rfl).1

/-- C4 counterexample: a one-file batch whose only outcome is an error
still calls UpdateStats with len(results) = 1 and the starting accumulator
gains one session file, although zero files completed; the claim requires
the increment to be the number of completed files, which is 0 here. -/
theorem stats_counts_error_outcomes :
    (compressPDFWithContext ""
      (fun _ => { exitOk := true, errString := "", output := "", writesOutput := true })
      (fun _ => some 1) "20250101_000000" (fun i => String.mk (List.replicate i 'i'))
      (.ok none)
      { files := ["a.pdf"], compressionLevel := "", advancedOptions := none }
      { fs := ["a.pdf"], invocations := [] }).2 = [(1, 0)] ∧
    ((compressPDFWithContext ""
      (fun _ => { exitOk := true, errString := "", output := "", writesOutput := true })
      (fun _ => some 1) "20250101_000000" (fun i => String.mk (List.replicate i 'i'))
      (.ok none)
      { files := ["a.pdf"], compressionLevel := "", advancedOptions := none }
      { fs := ["a.pdf"], invocations := [] }).1.files.filter
        (fun r => r.status == "completed")).length = 0 ∧
    (updateStats
      { totalFilesCompressed := 0, totalDataSaved := 0,
        sessionFilesCompressed := 0, sessionDataSaved := 0 } 1 0).sessionFilesCompressed = 1 :=
  ⟨rfl, rfl, rfl⟩

/-- C4 (amended): the statistics accumulator is updated exactly once per
dispatched batch, after all outcomes are collected, but the files
increment is the total number of outcomes (error outcomes included), while
the bytes increment sums savings over Completed outcomes only; folding the
recorded calls over any starting accumulator applies updateStats exactly
once with those arguments. -/
theorem stats_update_once (gsPath : String) (engine : Engine)
    (statSize : String → Option Int) (timestamp : String) (ids : Nat → String)
    (prefs : Except Unit (Option String)) (request : CompressionRequest)
    (st : SysState) (s0 : AppStats) (hne : request.files ≠ []) :
    (compressPDFWithContext gsPath engine statSize timestamp ids prefs request st).2 =
      [(((compressPDFWithContext gsPath engine statSize timestamp ids prefs request
            st).1.files.length : Int),
        (compressPDFWithContext gsPath engine statSize timestamp ids prefs request
            st).1.totalOriginalSize -
        (compressPDFWithContext gsPath engine statSize timestamp ids prefs request
            st).1.totalCompressedSize)] ∧
    (compressPDFWithContext gsPath engine statSize timestamp ids prefs request
        st).1.totalOriginalSize =
      (((compressPDFWithContext gsPath engine statSize timestamp ids prefs request
          st).1.files.filter (fun r => r.status == "completed")).map
        (fun r => r.originalSize)).sum ∧
    (compressPDFWithContext gsPath engine statSize timestamp ids prefs request
        st).1.totalCompressedSize =
      (((compressPDFWithContext gsPath engine statSize timestamp ids prefs request
          st).1.files.filter (fun r => r.status == "completed")).map
        (fun r => r.compressedSize)).sum ∧
    ((compressPDFWithContext gsPath engine statSize timestamp ids prefs request
        st).2.foldl (fun acc nd => updateStats acc nd.1 nd.2) s0) =
      updateStats s0
        ((compressPDFWithContext gsPath engine statSize timestamp ids prefs request
            st).1.files.length : Int)
        ((compressPDFWithContext gsPath engine statSize timestamp ids prefs request
            st).1.totalOriginalSize -
         (compressPDFWithContext gsPath engine statSize timestamp ids prefs request
            st).1.totalCompressedSize) := by
  have hfe : request.files.isEmpty = false := by
    cases hf : request.files with
    | nil => exact absurd hf hne
    | cons a l => rfl
  refine ⟨?_, ?_, ?_, ?_⟩
  · simp only [compressPDFWithContext, hfe, Bool.false_eq_true, if_false]
  · simp only [compressPDFWithContext, hfe, Bool.false_eq_true, if_false]
    rw [aggregate_eq]
  · simp only [compressPDFWithContext, hfe, Bool.false_eq_true, if_false]
    rw [aggregate_eq]
  · simp only [compressPDFWithContext, hfe, Bool.false_eq_true, if_false, List.foldl_cons,
      List.foldl_nil]

/-- C4 witness: the amended statement at a concrete one-file batch. -/
theorem stats_update_once_witness :
    (compressPDFWithContext ""
      (fun _ => { exitOk := true, errString := "", output := "", writesOutput := true })
      (fun _ => some 1) "20250101_000000" (fun i => String.mk (List.replicate i 'i'))
      (.ok none)
      { files := ["a.pdf"], compressionLevel := "", advancedOptions := none }
      { fs := ["a.pdf"], invocations := [] }).2 =
      [(((compressPDFWithContext ""
        (fun _ => { exitOk := true, errString := "", output := "", writesOutput := true })
        (fun _ => some 1) "20250101_000000" (fun i => String.mk (List.replicate i 'i'))
        (.ok none)
        { files := ["a.pdf"], compressionLevel := "", advancedOptions := none }
        { fs := ["a.pdf"], invocations := [] }).1.files.length : Int),
        (compressPDFWithContext ""
        (fun _ => { exitOk := true, errString := "", output := "", writesOutput := true })
        (fun _ => some 1) "20250101_000000" (fun i => String.mk (List.replicate i 'i'))
        (.ok none)
        { files := ["a.pdf"], compressionLevel := "", advancedOptions := none }
        { fs := ["a.pdf"], invocations := [] }).1.totalOriginalSize -
        (compressPDFWithContext ""
        (fun _ => { exitOk := true, errString := "", output := "", writesOutput := true })
        (fun _ => some 1) "20250101_000000" (fun i => String.mk (List.replicate i 'i'))
        (.ok none)
        { files := ["a.pdf"], compressionLevel := "", advancedOptions := none }
        { fs := ["a.pdf"], invocations := [] }).1.totalCompressedSize)] :=
  (stats_update_once ""
    (fun _ => { exitOk := true, errString := "", output := "", writesOutput := true })
    (fun _ => some 1) "20250101_000000" (fun i => String.mk (List.replicate i 'i'))
    (.ok none)
    { files := ["a.pdf"], compressionLevel := "", advancedOptions := none }
    { fs := ["a.pdf"], invocations := [] }
    { totalFilesCompressed := 0, totalDataSaved := 0,
      sessionFilesCompressed := 0, sessionDataSaved := 0 }
    (by simp)).1

theorem batchOutcomes_map_fileID (proc : ProcessorFunc) (ids : Nat → String)
    (request : BatchRequest)
    (hecho : ∀ id path level o r, proc id path level o = .ok r → r.fileID = id) :
    (batchOutcomes proc ids request).map (fun r => r.fileID) =
      (List.range request.files.length).map ids := by
  unfold batchOutcomes
  rw [List.map_map, List.map_map]
  have h1 : ∀ ip ∈ request.files.enum,
      (((fun r : FileResult => r.fileID) ∘
        (fun it : String × String =>
          runWorkItem proc it.1 it.2 request.compressionLevel request.advancedOptions)) ∘
       (fun ip : Nat × String => (ids ip.1, ip.2))) ip = ids ip.1 := by
    intro ip _
    simp only [Function.comp]
    unfold runWorkItem
    split
    · rfl
    · next r heq => simpa using hecho _ _ _ _ _ heq
  rw [List.map_congr_left h1]
  rw [show (fun ip : Nat × String => ids ip.1) = ids ∘ Prod.fst from rfl]
  rw [← List.map_map, List.enum_map_fst]

/-- C7: for every uncancelled batch run to completion, totalFiles equals
the number of submitted input paths, the outcome ids are pairwise distinct
(given a collision-free id supply and a processor that echoes the id it is
handed), and the aggregate byte totals sum only over Completed outcomes —
an Error outcome counts in totalFiles but contributes nothing to the byte
totals — for any completion order of the outcome stream. -/
theorem batch_totals_unique_ids (proc : ProcessorFunc) (ids : Nat → String)
    (request : BatchRequest) (resultsPerm : List FileResult)
    (hinj : Function.Injective ids)
    (hecho : ∀ id path level o r, proc id path level o = .ok r → r.fileID = id)
    (hperm : resultsPerm.Perm (batchOutcomes proc ids request)) :
    (processBatch proc ids request).totalFiles = request.files.length ∧
    (collectResults resultsPerm).totalFiles = request.files.length ∧
    ((collectResults resultsPerm).results.map (fun r => r.fileID)).Nodup ∧
    (collectResults resultsPerm).totalOriginalSize =
      ((resultsPerm.filter (fun r => r.status == "completed")).map
        (fun r => r.originalSize)).sum ∧
    (collectResults resultsPerm).totalCompressedSize =
      ((resultsPerm.filter (fun r => r.status == "completed")).map
        (fun r => r.compressedSize)).sum := by
  have hlen : (batchOutcomes proc ids request).length = request.files.length := by
    simp [batchOutcomes]
  refine ⟨?_, ?_, ?_, ?_, ?_⟩
  · cases hf : request.files with
    | nil => simp [processBatch, hf]
    | cons a l =>
      have hfe : request.files.isEmpty = false := by rw [hf]; rfl
      simp only [processBatch, hfe, Bool.false_eq_true, if_false, collectResults]
      rw [← hf]
      exact hlen
  · simp only [collectResults]
    rw [hperm.length_eq]
    exact hlen
  · simp only [collectResults]
    rw [(hperm.map (fun r => r.fileID)).nodup_iff]
    rw [batchOutcomes_map_fileID proc ids request hecho]
    exact (List.nodup_range _).map hinj
  · simp [collectResults, aggregate_eq]
  · simp [collectResults, aggregate_eq]

/-- C7 witness: the batch invariants at a concrete one-file batch with an
injective id supply and the identity completion order. -/
theorem batch_totals_unique_ids_witness :
    (processBatch (fun _ _ _ _ => .error "engine failed")
      (fun i => String.mk (List.replicate i 'i'))
      { files := ["a.pdf"], compressionLevel := "good_enough",
        advancedOptions := none }).totalFiles = 1 :=
  (batch_totals_unique_ids (fun _ _ _ _ => .error "engine failed")
    (fun i => String.mk (List.replicate i 'i'))
    { files := ["a.pdf"], compressionLevel := "good_enough", advancedOptions := none }
    (batchOutcomes (fun _ _ _ _ => .error "engine failed")
      (fun i => String.mk (List.replicate i 'i'))
      { files := ["a.pdf"], compressionLevel := "good_enough", advancedOptions := none })
    (by
      intro a b hab
      have hl := congrArg (fun s : String => s.data.length) hab
      simpa using hl)
    (by intro id path level o r h; exact Except.noConfusion h)
    (List.Perm.refl _)).1

end KleinPDF
